import Mathlib

/-!
Shallow embedding of `src/galaxy_function.py` from the repository
Breathing_BoxSimulation: the per-timestep update rules and closure
relations of a one-box galactic chemical evolution model.

Every function in the source is a pure arithmetic mapping on Python
floats.  Finite float arithmetic is modelled exactly over the rationals
`Rat` (the identities at stake are algebraic, so the exact idealization
is the right setting).  Two aspects of Python float semantics need more
than plain rationals and are modelled separately:

* Python raises `ZeroDivisionError` when the divisor of a float
  division is zero, so `star_form_rate`, whose body divides by `tdy`,
  is embedded as an `Option Rat` that is `none` exactly when `tdy = 0`.

* IEEE-754 special values: the type `FVal` below adjoins `inf`, `ninf`
  and `nan` to exact rationals, with subtraction and multiplication
  following the IEEE-754 propagation rules (in particular
  `0 * inf = nan`).  Finite arithmetic in `FVal` is exact, which is
  faithful for the special-value questions it is used for.
-/

/-- Python source, galaxy_function.py line 35: return (-sfr + R*sfr)*t -/
def enrich_gas (sfr R t : ℚ) : ℚ := (-sfr + R*sfr)*t

/-- Python source, galaxy_function.py line 59: return (- alp*sfr)*t -/
def remove_egas (sfr alp t : ℚ) : ℚ := (- alp*sfr)*t

/-- Python source, galaxy_function.py line 84: return (bta)*t -/
def gas_infall (bta t : ℚ) : ℚ := (bta)*t

/-- Python source, galaxy_function.py line 108: return (sfr - R*sfr)*t -/
def total_stellar_mass (sfr R t : ℚ) : ℚ := (sfr - R*sfr)*t

/-- Python source, galaxy_function.py line 134: return (-zg*sfr + yz*sfr)*t -/
def enrich_metalgas (zg sfr yz t : ℚ) : ℚ := (-zg*sfr + yz*sfr)*t

/-- Python source, galaxy_function.py line 160: return (- alp*zg*sfr)*t -/
def remove_metalgas (zg sfr alp t : ℚ) : ℚ := (- alp*zg*sfr)*t

/-- Python source, galaxy_function.py line 187: return (bta*znf)*t -/
def infall_metalgas (bta znf t : ℚ) : ℚ := (bta*znf)*t

/-- Python source, galaxy_function.py line 212: return (zg*sfr - zg*R*sfr)*t -/
def metal_mass_starphase (zg sfr R t : ℚ) : ℚ := (zg*sfr - zg*R*sfr)*t

/-- Python source, galaxy_function.py line 236: return (1 - R)*sfr*t -/
def total_mass_starpop (sfr R t : ℚ) : ℚ := (1 - R)*sfr*t

/-- Python source, galaxy_function.py line 262: return zg*(1 - R)*sfr*t -/
def total_mass_metalpop (zg sfr R t : ℚ) : ℚ := zg*(1 - R)*sfr*t

/-- Python source, galaxy_function.py line 286:
return ( alp_e*(mg - mc) ) / tdy.
Python float division raises ZeroDivisionError when the divisor is
zero, so the embedding returns `none` exactly when `tdy = 0` and
`some` of the quotient otherwise. -/
def star_form_rate (alp_e mg mc tdy : ℚ) : Option ℚ :=
  if tdy = 0 then none else some ((alp_e*(mg - mc)) / tdy)

/-- Python source, galaxy_function.py line 306: return (1 - R)*sfr -/
def infall_rate (R sfr : ℚ) : ℚ := (1 - R)*sfr

/-- IEEE-754 double values abstracted as exact rationals together with
the special values +inf, -inf and NaN (all NaN payloads identified). -/
inductive FVal where
  | fin (q : ℚ)
  | inf
  | ninf
  | nan
  deriving DecidableEq

/-- IEEE-754 subtraction on `FVal`: finite minus finite is exact,
inf - inf and (-inf) - (-inf) are NaN, NaN propagates. -/
def FVal.sub : FVal → FVal → FVal
  | .nan, _ => .nan
  | _, .nan => .nan
  | .fin a, .fin b => .fin (a - b)
  | .fin _, .inf => .ninf
  | .fin _, .ninf => .inf
  | .inf, .fin _ => .inf
  | .ninf, .fin _ => .ninf
  | .inf, .inf => .nan
  | .inf, .ninf => .inf
  | .ninf, .inf => .ninf
  | .ninf, .ninf => .nan

/-- IEEE-754 multiplication on `FVal`: finite times finite is exact,
zero times an infinity is NaN, NaN propagates, signs follow IEEE. -/
def FVal.mul : FVal → FVal → FVal
  | .nan, _ => .nan
  | _, .nan => .nan
  | .fin a, .fin b => .fin (a * b)
  | .fin a, .inf => if 0 < a then .inf else if a < 0 then .ninf else .nan
  | .fin a, .ninf => if 0 < a then .ninf else if a < 0 then .inf else .nan
  | .inf, .fin b => if 0 < b then .inf else if b < 0 then .ninf else .nan
  | .ninf, .fin b => if 0 < b then .ninf else if b < 0 then .inf else .nan
  | .inf, .inf => .inf
  | .inf, .ninf => .ninf
  | .ninf, .inf => .ninf
  | .ninf, .ninf => .inf

namespace FP

/-- Python source, galaxy_function.py line 306, evaluated in IEEE-754
special-value semantics: return (1 - R)*sfr with `1` the float 1.0. -/
def infall_rate (R sfr : FVal) : FVal :=
  FVal.mul (FVal.sub (FVal.fin 1) R) sfr

end FP

/-- C1: the claimed identity fails on the code.  At sfr = 1, R = 0,
t = 1 the code gives enrich_gas = -1 and total_stellar_mass = 1, so
their sum is 0, while the claim demands sfr * t = 1. -/
theorem C1_sum_counterexample :
    enrich_gas 1 0 1 + total_stellar_mass 1 0 1 ≠ (1 : ℚ) * 1 := by
  norm_num [enrich_gas, total_stellar_mass]

/-- C1 (amended): the gas-return and star-locking increments cancel
exactly: for all sfr, R, t,
enrich_gas sfr R t + total_stellar_mass sfr R t = 0. -/
theorem C1_mass_conservation (sfr R t : ℚ) :
    enrich_gas sfr R t + total_stellar_mass sfr R t = 0 := by
  unfold enrich_gas total_stellar_mass
  ring

/-- C2: the claim fails on the code.  gas_infall takes no sfr argument,
so setting sfr = 0 with t = 1 and bta = 1 leaves gas_infall 1 1 = 1,
not 0; the universally quantified claim is therefore false. -/
theorem C2_zero_rate_counterexample :
    ¬ (∀ sfr R alp bta znf zg yz t : ℚ, sfr = 0 ∨ t = 0 →
        enrich_gas sfr R t = 0 ∧ remove_egas sfr alp t = 0 ∧
        gas_infall bta t = 0 ∧ total_stellar_mass sfr R t = 0 ∧
        enrich_metalgas zg sfr yz t = 0 ∧ remove_metalgas zg sfr alp t = 0 ∧
        infall_metalgas bta znf t = 0 ∧ metal_mass_starphase zg sfr R t = 0 ∧
        total_mass_starpop sfr R t = 0 ∧ total_mass_metalpop zg sfr R t = 0) := by
  intro h
  have h2 := (h 0 0 0 1 0 0 0 1 (Or.inl rfl)).2.2.1
  norm_num [gas_infall] at h2

/-- C2 (amended): if t = 0 every update-rule function returns 0, and
if sfr = 0 every update-rule function that takes sfr as an argument
returns 0; gas_infall and infall_metalgas take no sfr argument and
vanish only through t. -/
theorem C2_zero_rate (sfr R alp bta znf zg yz t : ℚ) :
    (t = 0 →
      enrich_gas sfr R t = 0 ∧ remove_egas sfr alp t = 0 ∧
      gas_infall bta t = 0 ∧ total_stellar_mass sfr R t = 0 ∧
      enrich_metalgas zg sfr yz t = 0 ∧ remove_metalgas zg sfr alp t = 0 ∧
      infall_metalgas bta znf t = 0 ∧ metal_mass_starphase zg sfr R t = 0 ∧
      total_mass_starpop sfr R t = 0 ∧ total_mass_metalpop zg sfr R t = 0) ∧
    (sfr = 0 →
      enrich_gas sfr R t = 0 ∧ remove_egas sfr alp t = 0 ∧
      total_stellar_mass sfr R t = 0 ∧ enrich_metalgas zg sfr yz t = 0 ∧
      remove_metalgas zg sfr alp t = 0 ∧ metal_mass_starphase zg sfr R t = 0 ∧
      total_mass_starpop sfr R t = 0 ∧ total_mass_metalpop zg sfr R t = 0) := by
  constructor
  · rintro rfl
    refine ⟨?_, ?_, ?_, ?_, ?_, ?_, ?_, ?_, ?_, ?_⟩ <;>
      simp [enrich_gas, remove_egas, gas_infall, total_stellar_mass,
        enrich_metalgas, remove_metalgas, infall_metalgas,
        metal_mass_starphase, total_mass_starpop, total_mass_metalpop]
  · rintro rfl
    refine ⟨?_, ?_, ?_, ?_, ?_, ?_, ?_, ?_⟩ <;>
      simp [enrich_gas, remove_egas, total_stellar_mass,
        enrich_metalgas, remove_metalgas,
        metal_mass_starphase, total_mass_starpop, total_mass_metalpop]

/-- C2 witness: the amended theorem evaluated at concrete inputs, with
both hypotheses discharged: t = 0 with bta = 5, and sfr = 0 with
t = 7. -/
theorem C2_zero_rate_witness :
    gas_infall 5 0 = 0 ∧ enrich_gas 2 3 0 = 0 ∧ enrich_gas 0 3 7 = 0 :=
  ⟨((C2_zero_rate 2 3 1 5 1 1 1 0).1 rfl).2.2.1,
   ((C2_zero_rate 2 3 1 5 1 1 1 0).1 rfl).1,
   ((C2_zero_rate 0 3 1 5 1 1 1 7).2 rfl).1⟩

/-- C3: the claim fails on the code.  Python float division raises
ZeroDivisionError when the divisor is zero, so
star_form_rate alp_e mg mc 0 signals a failure instead of returning an
Inf/NaN result; the embedding witnesses this as `none` at the concrete
input alp_e = 1, mg = 2, mc = 1, tdy = 0. -/
theorem C3_total_counterexample :
    ¬ (∀ alp_e mg mc tdy : ℚ, (star_form_rate alp_e mg mc tdy).isSome) := by
  intro h
  have h0 := h 1 2 1 0
  simp [star_form_rate] at h0

/-- C3 (amended): star_form_rate returns a result exactly when
tdy ≠ 0; at tdy = 0 it raises ZeroDivisionError (modelled as `none`).
Every other update-rule and closure function is a total arithmetic map
and never signals. -/
theorem C3_star_form_rate_domain (alp_e mg mc tdy : ℚ) :
    (star_form_rate alp_e mg mc tdy).isSome ↔ tdy ≠ 0 := by
  rcases eq_or_ne tdy 0 with h | h <;> simp [star_form_rate, h]

/-- C3 witness: the amended theorem applied at the concrete input
tdy = 4 yields a defined result. -/
theorem C3_star_form_rate_domain_witness :
    (star_form_rate 1 2 1 4).isSome :=
  (C3_star_form_rate_domain 1 2 1 4).mpr (by norm_num)

/-- C4: for all sfr, R, t, total_stellar_mass sfr R t equals
(1 - R) * sfr * t exactly. -/
theorem C4_total_stellar_mass_formula (sfr R t : ℚ) :
    total_stellar_mass sfr R t = (1 - R) * sfr * t := by
  unfold total_stellar_mass
  ring

/-- C5: the claim fails for non-finite sfr.  In IEEE-754 semantics
(1 - 1) * inf = 0 * inf = NaN, so infall_rate at R = 1 and sfr = +inf
is NaN, not 0. -/
theorem C5_nonfinite_counterexample :
    FP.infall_rate (FVal.fin 1) FVal.inf ≠ FVal.fin 0 := by
  simp [FP.infall_rate, FVal.sub, FVal.mul]

/-- C5 (amended): infall_rate R sfr = (1 - R) * sfr for all R, sfr,
and infall_rate 1 sfr = 0 for every finite sfr; for every non-finite
sfr (+inf, -inf or NaN) the IEEE-754 result is NaN rather than 0. -/
theorem C5_infall_rate_formula (R sfr q : ℚ) :
    infall_rate R sfr = (1 - R) * sfr ∧
    infall_rate 1 sfr = 0 ∧
    FP.infall_rate (FVal.fin 1) (FVal.fin q) = FVal.fin 0 ∧
    FP.infall_rate (FVal.fin 1) FVal.inf = FVal.nan ∧
    FP.infall_rate (FVal.fin 1) FVal.ninf = FVal.nan ∧
    FP.infall_rate (FVal.fin 1) FVal.nan = FVal.nan := by
  refine ⟨rfl, by unfold infall_rate; ring, ?_, ?_, ?_, ?_⟩ <;>
    simp [FP.infall_rate, FVal.sub, FVal.mul]

/-- C6: for tdy ≠ 0, star_form_rate alp_e mg mc tdy returns
alp_e * (mg - mc) / tdy, and at the threshold mg = mc the returned
rate is exactly 0. -/
theorem C6_star_form_rate_formula (alp_e mg mc tdy : ℚ) (h : tdy ≠ 0) :
    star_form_rate alp_e mg mc tdy = some (alp_e * (mg - mc) / tdy) ∧
    star_form_rate alp_e mc mc tdy = some 0 := by
  constructor <;> simp [star_form_rate, h]

/-- C6 witness: at alp_e = 2, mg = 5, mc = 3, tdy = 4 the theorem gives
star_form_rate = some 1 and the threshold case gives some 0. -/
theorem C6_star_form_rate_formula_witness :
    star_form_rate 2 5 3 4 = some 1 ∧ star_form_rate 2 3 3 4 = some 0 := by
  have h := C6_star_form_rate_formula 2 5 3 4 (by norm_num)
  refine ⟨?_, h.2⟩
  rw [h.1]
  norm_num

/-- C7: every update-rule function is linear in its timestep argument:
evaluating at 2*t returns exactly twice the value at t, for all values
of the other arguments. -/
theorem C7_linearity_in_t (sfr R alp bta znf zg yz t : ℚ) :
    enrich_gas sfr R (2*t) = 2 * enrich_gas sfr R t ∧
    remove_egas sfr alp (2*t) = 2 * remove_egas sfr alp t ∧
    gas_infall bta (2*t) = 2 * gas_infall bta t ∧
    total_stellar_mass sfr R (2*t) = 2 * total_stellar_mass sfr R t ∧
    enrich_metalgas zg sfr yz (2*t) = 2 * enrich_metalgas zg sfr yz t ∧
    remove_metalgas zg sfr alp (2*t) = 2 * remove_metalgas zg sfr alp t ∧
    infall_metalgas bta znf (2*t) = 2 * infall_metalgas bta znf t ∧
    metal_mass_starphase zg sfr R (2*t) = 2 * metal_mass_starphase zg sfr R t ∧
    total_mass_starpop sfr R (2*t) = 2 * total_mass_starpop sfr R t ∧
    total_mass_metalpop zg sfr R (2*t) = 2 * total_mass_metalpop zg sfr R t := by
  refine ⟨?_, ?_, ?_, ?_, ?_, ?_, ?_, ?_, ?_, ?_⟩ <;>
    first
    | (unfold enrich_gas; ring)
    | (unfold remove_egas; ring)
    | (unfold gas_infall; ring)
    | (unfold total_stellar_mass; ring)
    | (unfold enrich_metalgas; ring)
    | (unfold remove_metalgas; ring)
    | (unfold infall_metalgas; ring)
    | (unfold metal_mass_starphase; ring)
    | (unfold total_mass_starpop; ring)
    | (unfold total_mass_metalpop; ring)

/-- C8: the gas-infall update rules use the sfr-free formulas:
gas_infall bta t = bta * t and infall_metalgas bta znf t =
bta * znf * t. -/
theorem C8_infall_formulas (bta znf t : ℚ) :
    gas_infall bta t = bta * t ∧ infall_metalgas bta znf t = bta * znf * t :=
  ⟨rfl, rfl⟩

/-- C9: the gas increment from enrichment is exactly the negative of
the stellar-mass increment, so gas lost equals stellar mass gained. -/
theorem C9_gas_star_antisymmetry (sfr R t : ℚ) :
    enrich_gas sfr R t = - total_stellar_mass sfr R t := by
  unfold enrich_gas total_stellar_mass
  ring

/-- C10: the stellar-phase and stellar-population metal terms are the
gas metallicity times the corresponding mass terms, and the per-step
population mass equals the cumulative stellar-mass increment. -/
theorem C10_metal_mass_relations (zg sfr R t : ℚ) :
    metal_mass_starphase zg sfr R t = zg * total_stellar_mass sfr R t ∧
    total_mass_metalpop zg sfr R t = zg * total_mass_starpop sfr R t ∧
    total_stellar_mass sfr R t = total_mass_starpop sfr R t := by
  refine ⟨?_, ?_, ?_⟩ <;>
    first
    | (unfold metal_mass_starphase total_stellar_mass; ring)
    | (unfold total_mass_metalpop total_mass_starpop; ring)
    | (unfold total_stellar_mass total_mass_starpop; ring)
